import Mathlib

/-!
Shallow embedding of the `vape4d` windowing / engine core (`src/lib.rs`).

The file models the pure control logic of `WindowContext`:
construction (`new`), `load_file`, `resize`, `update`, the pass structure
of `render`, and the surface-error dispatch of the frame loop in
`open_window`.  The camera, controller, renderer and volume-loading
modules are not part of the sources; every operation coming from them
(`CameraController::update_camera`, `Camera::visible`,
`Projection::resize`, `Camera::new_aabb_iso`, `CameraController::new`,
`std::fs::File::open`, `Volume::load`) is kept abstract: the embedded
functions are parameterized over them, so every theorem below holds for
all possible implementations of those collaborators.

Machine floats (`f32`) are modelled by `ℚ`; `Duration` by a rational
number of seconds; Rust's `f32::fract` (fractional part, truncation
semantics) by `fract32` below.
-/

/-- Axis-aligned bounding box, componentwise min/max corners
(`Aabb` in the volume module; only its identity matters here,
the camera predicates over it are abstract). -/
structure Aabb where
  minX : ℚ
  minY : ℚ
  minZ : ℚ
  maxX : ℚ
  maxY : ℚ
  maxZ : ℚ
deriving DecidableEq, Repr

/-- CPU-side volume description: only the fields `lib.rs` reads
(`volume.aabb`, `volume.timesteps`). -/
structure Volume where
  aabb : Aabb
  timesteps : Nat
deriving DecidableEq, Repr

/-- GPU-resident volume; retains the originating `Volume`
(`VolumeGPU::new(device, queue, volume)` — the GPU texture itself is
outside the model). -/
structure VolumeGPU where
  volume : Volume
deriving DecidableEq, Repr

/-- `wgpu::FilterMode` as used by `RenderSettings`. -/
inductive FilterMode where
  | nearest
  | linear
deriving DecidableEq, Repr

/-- The fields of `renderer::RenderSettings` that `lib.rs` sets or reads. -/
structure RenderSettings where
  clippingAabb : Option Aabb
  time : ℚ
  stepSize : ℚ
  spatialFilter : FilterMode
  temporalFilter : FilterMode
  distanceScale : ℚ
  vmin : Option ℚ
  vmax : Option ℚ
  gammaCorrection : Bool
  renderIso : Bool
  ssao : Bool
deriving DecidableEq, Repr

/-- A surface texture format: its identity plus the one predicate
`lib.rs` asks of it (`TextureFormat::is_srgb`). -/
structure SurfaceFormat where
  id : Nat
  isSrgb : Bool
deriving DecidableEq, Repr

/-- `RenderConfig` (the fields `WindowContext::new` reads). -/
structure RenderConfig where
  noVsync : Bool
  distanceScale : ℚ
  vmin : Option ℚ
  vmax : Option ℚ
  duration : Option ℚ
deriving DecidableEq, Repr

/-- The abstract camera/controller collaborators of `WindowContext`,
bundled: `C` is the camera type (`Camera<OrthographicProjection>`),
`Ctrl` the controller type (`CameraController`).  Each field models one
method of the missing camera/controller modules, exactly as `lib.rs`
calls it. -/
structure CameraOps (C Ctrl : Type) where
  visible : C → Aabb → Bool
  updateCamera : Ctrl → C → ℚ → Ctrl × C
  projResize : C → Nat → Nat → C
  newAabbIso : Aabb → ℚ → C
  newController : Aabb → Ctrl

/-- The engine state `WindowContext` (the fields its methods in
`lib.rs` touch); `configWidth/Height/Format` are the surface
configuration. -/
structure WindowContext (C Ctrl : Type) where
  configWidth : Nat
  configHeight : Nat
  configFormat : SurfaceFormat
  scaleFactor : ℚ
  controller : Ctrl
  camera : C
  uiVisible : Bool
  volume : VolumeGPU
  renderSettings : RenderSettings
  playing : Bool
  animationDuration : ℚ
  ssaoWidth : Nat
  ssaoHeight : Nat
  showBox : Bool
deriving DecidableEq, Repr

/-- Rust `f32::fract`: `x - x.trunc()`, i.e. floor-fract on nonnegative
inputs and its mirror image on negative ones. -/
def fract32 (q : ℚ) : ℚ :=
  if 0 ≤ q then Int.fract q else -Int.fract (-q)

namespace WindowContext

variable {C Ctrl : Type}

/-- `WindowContext::update` (`lib.rs` 290-301): snapshot the camera,
integrate the controller, roll back if the volume AABB is no longer
visible; then, if playing and the volume has more than one timestep,
advance the normalized animation time and wrap with `fract`. -/
def update (ops : CameraOps C Ctrl) (st : WindowContext C Ctrl) (dt : ℚ) :
    WindowContext C Ctrl :=
  let oldCamera := st.camera
  let cc := ops.updateCamera st.controller st.camera dt
  let cam := if ops.visible cc.2 st.volume.volume.aabb then cc.2 else oldCamera
  let st1 := { st with controller := cc.1, camera := cam }
  if st1.playing && decide (1 < st1.volume.volume.timesteps) then
    { st1 with renderSettings :=
        { st1.renderSettings with
            time := fract32 (st1.renderSettings.time + dt / st1.animationDuration) } }
  else
    st1

/-- `WindowContext::resize` (`lib.rs` 271-288): a positive size updates
the surface configuration, resizes the projection and reallocates the
SSAO textures; a `Some` positive scale factor updates `scale_factor`,
independently of the size. -/
def resize (ops : CameraOps C Ctrl) (st : WindowContext C Ctrl)
    (newWidth newHeight : Nat) (scaleFactor : Option ℚ) : WindowContext C Ctrl :=
  let st1 :=
    if 0 < newWidth ∧ 0 < newHeight then
      { st with
          configWidth := newWidth
          configHeight := newHeight
          camera := ops.projResize st.camera newWidth newHeight
          ssaoWidth := newWidth
          ssaoHeight := newHeight }
    else st
  match scaleFactor with
  | some s => if 0 < s then { st1 with scaleFactor := s } else st1
  | none => st1

/-- `WindowContext::load_file` (`lib.rs` 258-269), with the `&mut self`
receiver made explicit: the result of the call together with the state
after it.  `fileOpen` models `std::fs::File::open`, `volumeLoad` models
`Volume::load`; each `?` returns the error before any state is
touched. -/
def load_file {Path Reader EIo ELoad : Type} (ops : CameraOps C Ctrl)
    (fileOpen : Path → Except EIo Reader)
    (volumeLoad : Reader → Except ELoad Volume)
    (st : WindowContext C Ctrl) (path : Path) :
    Except (EIo ⊕ ELoad) Unit × WindowContext C Ctrl :=
  match fileOpen path with
  | .error e => (.error (.inl e), st)
  | .ok reader =>
    match volumeLoad reader with
    | .error e => (.error (.inr e), st)
    | .ok volume =>
      (.ok (),
        { st with
            volume := VolumeGPU.mk volume
            camera := ops.projResize st.camera st.configWidth st.configHeight })

end WindowContext

/-- `lib.rs` 162-171: pick the first sRGB format of the surface
capabilities, falling back to the first reported format
(`formats[0]`, a panic on an empty list, modelled as `none`). -/
def selectSurfaceFormat (formats : List SurfaceFormat) : Option SurfaceFormat :=
  match formats.find? (fun f => f.isSrgb) with
  | some f => some f
  | none => formats.head?

namespace WindowContext

variable {C Ctrl : Type}

/-- `WindowContext::new` (`lib.rs` 133-256), deterministic parts: a zero
window size is replaced by 800×600; the surface format is selected by
`selectSurfaceFormat`; the render settings are built over the
`Default::default()` values `defaults` with `gamma_correction`
the negation of the format's sRGB flag; the camera is framed on the
volume AABB with aspect ratio width/height; SSAO textures take the
configured size. -/
def new (ops : CameraOps C Ctrl) (windowWidth windowHeight : Nat) (scale : ℚ)
    (formats : List SurfaceFormat) (defaults : RenderSettings)
    (volume : Volume) (rc : RenderConfig) : Option (WindowContext C Ctrl) :=
  let size : Nat × Nat :=
    if windowWidth = 0 ∨ windowHeight = 0 then (800, 600)
    else (windowWidth, windowHeight)
  match selectSurfaceFormat formats with
  | none => none
  | some fmt =>
    some
      { configWidth := size.1
        configHeight := size.2
        configFormat := fmt
        scaleFactor := scale
        controller := ops.newController volume.aabb
        camera := ops.newAabbIso volume.aabb ((size.1 : ℚ) / (size.2 : ℚ))
        uiVisible := true
        volume := VolumeGPU.mk volume
        renderSettings :=
          { defaults with
              clippingAabb := none
              time := 0
              stepSize := 2 / 1000
              spatialFilter := .nearest
              temporalFilter := .linear
              distanceScale := rc.distanceScale
              vmin := rc.vmin
              vmax := rc.vmax
              gammaCorrection := !fmt.isSrgb }
        playing := true
        animationDuration := (rc.duration.getD 10)
        ssaoWidth := size.1
        ssaoHeight := size.2
        showBox := false }

end WindowContext

/-- The passes `WindowContext::render` (`lib.rs` 303-414) records into
the command encoder, in submission order. -/
inductive RenderStep where
  | volumePass
  | ssaoPass
  | uiPass
deriving DecidableEq, Repr

namespace WindowContext

variable {C Ctrl : Type}

/-- The sequence of passes `render` encodes: the volume ray-march pass
always; the SSAO pass only under `render_iso && ssao`
(`lib.rs` 379-387); the UI pass only when the UI is visible. -/
def renderTrace (st : WindowContext C Ctrl) : List RenderStep :=
  [RenderStep.volumePass]
    ++ (if st.renderSettings.renderIso && st.renderSettings.ssao then
          [RenderStep.ssaoPass]
        else [])
    ++ (if st.uiVisible then [RenderStep.uiPass] else [])

end WindowContext

/-- `wgpu::SurfaceError`. -/
inductive SurfaceError where
  | timeout
  | outdated
  | lost
  | outOfMemory
deriving DecidableEq, Repr

/-- What the frame loop does after handling a redraw. -/
inductive LoopAction where
  | continueLoop
  | exitLoop
deriving DecidableEq, Repr

/-- The `match state.render(..)` arm of `open_window`
(`lib.rs` 515-527): `Lost` reconfigures at the window's current inner
size and continues, `OutOfMemory` exits the event loop, every other
error is only logged. -/
def handleRenderResult {C Ctrl : Type} (ops : CameraOps C Ctrl)
    (st : WindowContext C Ctrl) (innerWidth innerHeight : Nat)
    (res : Except SurfaceError Unit) : LoopAction × WindowContext C Ctrl :=
  match res with
  | .ok _ => (.continueLoop, st)
  | .error .lost => (.continueLoop, st.resize ops innerWidth innerHeight none)
  | .error .outOfMemory => (.exitLoop, st)
  | .error _ => (.continueLoop, st)

/-- A trivial camera/controller instantiation, used to evaluate the
abstract development on concrete inputs. -/
def unitOps : CameraOps Unit Unit where
  visible := fun _ _ => true
  updateCamera := fun c cam _ => (c, cam)
  projResize := fun c _ _ => c
  newAabbIso := fun _ _ => ()
  newController := fun _ => ()

/-- A concrete time-varying volume (unit cube, four timesteps). -/
def sampleVolume : Volume := { aabb := ⟨0, 0, 0, 1, 1, 1⟩, timesteps := 4 }

/-- Concrete render settings (also standing in for
`RenderSettings::default()`). -/
def sampleSettings : RenderSettings :=
  { clippingAabb := none, time := 0, stepSize := 2 / 1000,
    spatialFilter := .nearest, temporalFilter := .linear, distanceScale := 1,
    vmin := none, vmax := none, gammaCorrection := true,
    renderIso := false, ssao := false }

/-- A concrete engine state. -/
def sampleCtx : WindowContext Unit Unit :=
  { configWidth := 800, configHeight := 600, configFormat := ⟨0, true⟩,
    scaleFactor := 1, controller := (), camera := (), uiVisible := true,
    volume := ⟨sampleVolume⟩, renderSettings := sampleSettings,
    playing := true, animationDuration := 10,
    ssaoWidth := 800, ssaoHeight := 600, showBox := false }

/-- A concrete `RenderConfig`. -/
def sampleRenderConfig : RenderConfig :=
  { noVsync := false, distanceScale := 1, vmin := none, vmax := none,
    duration := none }

/-- A capability list whose first format is not sRGB but whose second
is. -/
def sampleFormats : List SurfaceFormat := [⟨0, false⟩, ⟨1, true⟩]

/-- The context `WindowContext::new` builds for a zero-sized window over
`sampleFormats`. -/
def builtCtx : WindowContext Unit Unit :=
  (WindowContext.new unitOps 0 0 1 sampleFormats sampleSettings sampleVolume
    sampleRenderConfig).getD sampleCtx

/-! ### Helper lemmas -/

theorem fract32_of_nonneg {q : ℚ} (h : 0 ≤ q) : fract32 q = Int.fract q := by
  simp [fract32, h]

/-! ### Helper lemmas about `update` -/

namespace WindowContext

variable {C Ctrl : Type}

theorem update_camera_eq (ops : CameraOps C Ctrl) (st : WindowContext C Ctrl) (dt : ℚ) :
    (st.update ops dt).camera =
      (if ops.visible (ops.updateCamera st.controller st.camera dt).2 st.volume.volume.aabb
        then (ops.updateCamera st.controller st.camera dt).2 else st.camera) := by
  simp only [update, apply_ite camera, ite_self]

theorem update_volume_eq (ops : CameraOps C Ctrl) (st : WindowContext C Ctrl) (dt : ℚ) :
    (st.update ops dt).volume = st.volume := by
  simp only [update, apply_ite volume, ite_self]

theorem update_playing_eq (ops : CameraOps C Ctrl) (st : WindowContext C Ctrl) (dt : ℚ) :
    (st.update ops dt).playing = st.playing := by
  simp only [update, apply_ite playing, ite_self]

theorem update_animationDuration_eq (ops : CameraOps C Ctrl) (st : WindowContext C Ctrl)
    (dt : ℚ) : (st.update ops dt).animationDuration = st.animationDuration := by
  simp only [update, apply_ite animationDuration, ite_self]

theorem update_time_eq (ops : CameraOps C Ctrl) (st : WindowContext C Ctrl) (dt : ℚ)
    (hplay : st.playing = true) (hts : 1 < st.volume.volume.timesteps) :
    (st.update ops dt).renderSettings.time =
      fract32 (st.renderSettings.time + dt / st.animationDuration) := by
  have hc : (st.playing && decide (1 < st.volume.volume.timesteps)) = true := by
    rw [hplay]
    simpa using hts
  simp only [update, apply_ite renderSettings, apply_ite RenderSettings.time, hc, if_true]

end WindowContext

theorem fract_fract_add (x y : ℚ) : Int.fract (Int.fract x + y) = Int.fract (x + y) := by
  have h1 : Int.fract x + y = (x + y) - (⌊x⌋ : ℚ) := by
    unfold Int.fract
    ring
  rw [h1, Int.fract_sub_int]

theorem update_iter_invariants {C Ctrl : Type} (ops : CameraOps C Ctrl)
    (st : WindowContext C Ctrl) (dt : ℚ) (k : ℕ) :
    ((fun s => WindowContext.update ops s dt)^[k] st).playing = st.playing ∧
    ((fun s => WindowContext.update ops s dt)^[k] st).volume = st.volume ∧
    ((fun s => WindowContext.update ops s dt)^[k] st).animationDuration =
      st.animationDuration := by
  induction k with
  | zero => exact ⟨rfl, rfl, rfl⟩
  | succ n ih =>
    rw [Function.iterate_succ_apply']
    refine ⟨?_, ?_, ?_⟩
    · rw [WindowContext.update_playing_eq]
      exact ih.1
    · rw [WindowContext.update_volume_eq]
      exact ih.2.1
    · rw [WindowContext.update_animationDuration_eq]
      exact ih.2.2

/-! ### Claim theorems -/

/-- C1: `WindowContext::update` preserves the camera-visibility
invariant: a camera that sees the volume AABB before the call still sees
it after, and whenever the controller's proposed camera fails the
`visible` check the snapshot is restored, leaving the camera exactly as
it was before the call. -/
theorem cameraVisibilityPreservedByUpdate {C Ctrl : Type} (ops : CameraOps C Ctrl)
    (st : WindowContext C Ctrl) (dt : ℚ)
    (h : ops.visible st.camera st.volume.volume.aabb = true) :
    ops.visible (st.update ops dt).camera (st.update ops dt).volume.volume.aabb = true ∧
    (ops.visible (ops.updateCamera st.controller st.camera dt).2 st.volume.volume.aabb
        = false →
      (st.update ops dt).camera = st.camera) := by
  rw [WindowContext.update_volume_eq, WindowContext.update_camera_eq]
  constructor
  · split
    · assumption
    · exact h
  · intro hv
    simp [hv]

theorem cameraVisibilityPreservedByUpdate_witness :
    unitOps.visible (WindowContext.update unitOps sampleCtx 1).camera
      (WindowContext.update unitOps sampleCtx 1).volume.volume.aabb = true :=
  (cameraVisibilityPreservedByUpdate unitOps sampleCtx 1 rfl).1

/-- C2: starting from `RenderSettings.time = 0`, `k` calls to `update`
with time delta `dt` each, while playing with more than one timestep and
animation duration `D > 0`, leave `time = fract (k*dt/D)`, a value in
`[0,1)`. -/
theorem animationTimeIsFract {C Ctrl : Type} (ops : CameraOps C Ctrl)
    (st : WindowContext C Ctrl) (dt : ℚ) (k : ℕ)
    (hplay : st.playing = true) (hts : 1 < st.volume.volume.timesteps)
    (ht0 : st.renderSettings.time = 0)
    (hD : 0 < st.animationDuration) (hdt : 0 ≤ dt) :
    ((fun s => WindowContext.update ops s dt)^[k] st).renderSettings.time =
      Int.fract ((k : ℚ) * dt / st.animationDuration) ∧
    0 ≤ ((fun s => WindowContext.update ops s dt)^[k] st).renderSettings.time ∧
    ((fun s => WindowContext.update ops s dt)^[k] st).renderSettings.time < 1 := by
  have key : ∀ n : ℕ,
      ((fun s => WindowContext.update ops s dt)^[n] st).renderSettings.time =
        Int.fract ((n : ℚ) * dt / st.animationDuration) := by
    intro n
    induction n with
    | zero => simp [ht0]
    | succ n ih =>
      obtain ⟨hp, hv, hd⟩ := update_iter_invariants ops st dt n
      rw [Function.iterate_succ_apply']
      rw [WindowContext.update_time_eq _ _ _ (by rw [hp]; exact hplay)
        (by rw [hv]; exact hts)]
      rw [ih, hd]
      rw [fract32_of_nonneg
        (add_nonneg (Int.fract_nonneg _) (div_nonneg hdt hD.le))]
      rw [fract_fract_add]
      congr 1
      push_cast
      ring
  refine ⟨key k, ?_, ?_⟩
  · rw [key k]
    exact Int.fract_nonneg _
  · rw [key k]
    exact Int.fract_lt_one _

theorem animationTimeIsFract_witness :
    ((fun s => WindowContext.update unitOps s 4)^[3] sampleCtx).renderSettings.time =
      Int.fract ((3 : ℚ) * 4 / sampleCtx.animationDuration) :=
  (animationTimeIsFract unitOps sampleCtx 4 3 rfl (by decide) rfl (by decide)
    (by decide)).1

/-- C3: `resize(0,0,_)` leaves the surface configuration (and the
camera) unchanged; `resize(w,h,_)` with `w,h > 0` stores the new size in
`config.width/height` and resizes the camera projection with exactly
that size. -/
theorem resizeConfigAndProjection {C Ctrl : Type} (ops : CameraOps C Ctrl)
    (st : WindowContext C Ctrl) (sf : Option ℚ) :
    ((st.resize ops 0 0 sf).configWidth = st.configWidth ∧
      (st.resize ops 0 0 sf).configHeight = st.configHeight ∧
      (st.resize ops 0 0 sf).camera = st.camera) ∧
    (∀ w h : ℕ, 0 < w → 0 < h →
      (st.resize ops w h sf).configWidth = w ∧
      (st.resize ops w h sf).configHeight = h ∧
      (st.resize ops w h sf).camera = ops.projResize st.camera w h) := by
  constructor
  · cases sf with
    | none => simp [WindowContext.resize]
    | some s =>
      refine ⟨?_, ?_, ?_⟩ <;>
        simp [WindowContext.resize, apply_ite WindowContext.configWidth,
          apply_ite WindowContext.configHeight, apply_ite WindowContext.camera,
          ite_self]
  · intro w h hw hh
    cases sf with
    | none => simp [WindowContext.resize, hw, hh]
    | some s =>
      refine ⟨?_, ?_, ?_⟩ <;>
        simp [WindowContext.resize, hw, hh, apply_ite WindowContext.configWidth,
          apply_ite WindowContext.configHeight, apply_ite WindowContext.camera,
          ite_self]

theorem resizeConfigAndProjection_witness :
    (sampleCtx.resize unitOps 1024 768 none).configWidth = 1024 ∧
    (sampleCtx.resize unitOps 1024 768 none).configHeight = 768 ∧
    (sampleCtx.resize unitOps 1024 768 none).camera =
      unitOps.projResize sampleCtx.camera 1024 768 :=
  (resizeConfigAndProjection unitOps sampleCtx none).2 1024 768 (by decide)
    (by decide)

/-- C4: the SSAO pass appears in the frame's encoded pass list iff both
`render_iso` and `ssao` are set; with either flag clear no SSAO step is
encoded at all. -/
theorem ssaoPassGating {C Ctrl : Type} (st : WindowContext C Ctrl) :
    st.renderTrace.contains RenderStep.ssaoPass =
      (st.renderSettings.renderIso && st.renderSettings.ssao) := by
  unfold WindowContext.renderTrace
  cases h1 : st.renderSettings.renderIso <;>
    cases h2 : st.renderSettings.ssao <;>
      cases h3 : st.uiVisible <;> rfl

/-- C5: the frame loop's reaction to `render`'s result: `Lost`
reconfigures the surface at the window's current inner size and
continues, `OutOfMemory` exits the event loop, `Outdated`/`Timeout` (and
success) leave the state untouched and continue. -/
theorem surfaceErrorDispatch {C Ctrl : Type} (ops : CameraOps C Ctrl)
    (st : WindowContext C Ctrl) (innerWidth innerHeight : ℕ) :
    handleRenderResult ops st innerWidth innerHeight (.error .lost) =
      (.continueLoop, st.resize ops innerWidth innerHeight none) ∧
    handleRenderResult ops st innerWidth innerHeight (.error .outOfMemory) =
      (.exitLoop, st) ∧
    handleRenderResult ops st innerWidth innerHeight (.error .outdated) =
      (.continueLoop, st) ∧
    handleRenderResult ops st innerWidth innerHeight (.error .timeout) =
      (.continueLoop, st) ∧
    handleRenderResult ops st innerWidth innerHeight (.ok ()) =
      (.continueLoop, st) :=
  ⟨rfl, rfl, rfl, rfl, rfl⟩

/-- C6: `load_file` either succeeds and replaces the engine's
`VolumeGPU` wholesale with one built from the newly decoded volume
(also resizing the projection to the current configuration), or it
returns the file-open / volume-load error synchronously with the engine
state left exactly as it was: no partial mutation on the error path. -/
theorem loadFileReplacesWholesaleOrLeavesUntouched
    {C Ctrl Path Reader EIo ELoad : Type} (ops : CameraOps C Ctrl)
    (fileOpen : Path → Except EIo Reader)
    (volumeLoad : Reader → Except ELoad Volume)
    (st : WindowContext C Ctrl) (path : Path) :
    (∀ e, (WindowContext.load_file ops fileOpen volumeLoad st path).1 = .error e →
      (WindowContext.load_file ops fileOpen volumeLoad st path).2 = st) ∧
    (∀ r v, fileOpen path = .ok r → volumeLoad r = .ok v →
      WindowContext.load_file ops fileOpen volumeLoad st path =
        (.ok (),
          { st with
              volume := VolumeGPU.mk v
              camera := ops.projResize st.camera st.configWidth
                st.configHeight })) := by
  constructor
  · intro e he
    revert he
    unfold WindowContext.load_file
    cases h1 : fileOpen path with
    | error e1 =>
      intro _
      rfl
    | ok r =>
      dsimp only
      cases h2 : volumeLoad r with
      | error e2 =>
        intro _
        rfl
      | ok v =>
        intro he
        simp at he
  · intro r v h1 h2
    unfold WindowContext.load_file
    rw [h1]
    dsimp only
    rw [h2]

theorem loadFileReplacesWholesaleOrLeavesUntouched_witness :
    WindowContext.load_file unitOps (fun _ : Unit => (Except.ok () : Except Unit Unit))
        (fun _ : Unit => (Except.ok sampleVolume : Except Unit Volume)) sampleCtx () =
      (.ok (),
        { sampleCtx with
            volume := VolumeGPU.mk sampleVolume
            camera := unitOps.projResize sampleCtx.camera sampleCtx.configWidth
              sampleCtx.configHeight }) :=
  (loadFileReplacesWholesaleOrLeavesUntouched unitOps _ _ sampleCtx ()).2 ()
    sampleVolume rfl rfl

/-- C7: at construction, `gamma_correction` is set to the negation of
the selected surface format's sRGB flag: gamma encoding is applied iff
the swap-chain format does not already encode it. -/
theorem gammaMatchesSurfaceFormat {C Ctrl : Type} (ops : CameraOps C Ctrl)
    (windowWidth windowHeight : ℕ) (scale : ℚ) (formats : List SurfaceFormat)
    (defaults : RenderSettings) (volume : Volume) (rc : RenderConfig)
    (ctx : WindowContext C Ctrl) (fmt : SurfaceFormat)
    (hf : selectSurfaceFormat formats = some fmt)
    (h : WindowContext.new ops windowWidth windowHeight scale formats defaults
        volume rc = some ctx) :
    ctx.renderSettings.gammaCorrection = !fmt.isSrgb := by
  unfold WindowContext.new at h
  rw [hf] at h
  simp only [Option.some.injEq] at h
  subst h
  rfl

theorem gammaMatchesSurfaceFormat_witness :
    builtCtx.renderSettings.gammaCorrection = !(SurfaceFormat.mk 1 true).isSrgb :=
  gammaMatchesSurfaceFormat unitOps 0 0 1 sampleFormats sampleSettings sampleVolume
    sampleRenderConfig builtCtx ⟨1, true⟩ rfl rfl

/-- C8: a zero window size at construction is replaced by 800×600, so
the surface configuration is strictly positive for every window, and the
SSAO textures and the camera's aspect ratio use that same size. -/
theorem newSizeFallbackPositive {C Ctrl : Type} (ops : CameraOps C Ctrl)
    (windowWidth windowHeight : ℕ) (scale : ℚ) (formats : List SurfaceFormat)
    (defaults : RenderSettings) (volume : Volume) (rc : RenderConfig)
    (ctx : WindowContext C Ctrl)
    (h : WindowContext.new ops windowWidth windowHeight scale formats defaults
        volume rc = some ctx) :
    0 < ctx.configWidth ∧ 0 < ctx.configHeight ∧
    ctx.ssaoWidth = ctx.configWidth ∧ ctx.ssaoHeight = ctx.configHeight ∧
    ctx.camera = ops.newAabbIso volume.aabb
      ((ctx.configWidth : ℚ) / (ctx.configHeight : ℚ)) ∧
    ((windowWidth = 0 ∨ windowHeight = 0) →
      ctx.configWidth = 800 ∧ ctx.configHeight = 600) := by
  unfold WindowContext.new at h
  cases hf : selectSurfaceFormat formats with
  | none =>
    rw [hf] at h
    exact absurd h (by simp)
  | some fmt =>
    rw [hf] at h
    simp only [Option.some.injEq] at h
    subst h
    by_cases hz : windowWidth = 0 ∨ windowHeight = 0
    · simp [hz]
    · have hw : windowWidth ≠ 0 := fun hc => hz (Or.inl hc)
      have hh : windowHeight ≠ 0 := fun hc => hz (Or.inr hc)
      simp [hz, Nat.pos_of_ne_zero hw, Nat.pos_of_ne_zero hh]

theorem newSizeFallbackPositive_witness :
    builtCtx.configWidth = 800 ∧ builtCtx.configHeight = 600 :=
  (newSizeFallbackPositive unitOps 0 0 1 sampleFormats sampleSettings sampleVolume
    sampleRenderConfig builtCtx rfl).2.2.2.2.2 (Or.inl rfl)

/-- C9: the surface format selected is the first sRGB entry of the
capability list; with no sRGB entry it is the list's first format, so
selection succeeds on every non-empty capability list. -/
theorem surfaceFormatSelection (formats : List SurfaceFormat)
    (hne : formats ≠ []) :
    (selectSurfaceFormat formats).isSome = true ∧
    (∀ l1 f l2, formats = l1 ++ f :: l2 → f.isSrgb = true →
      (∀ g ∈ l1, g.isSrgb = false) → selectSurfaceFormat formats = some f) ∧
    ((∀ g ∈ formats, g.isSrgb = false) →
      selectSurfaceFormat formats = formats.head?) := by
  refine ⟨?_, ?_, ?_⟩
  · unfold selectSurfaceFormat
    cases hfind : formats.find? (fun f => f.isSrgb) with
    | some f => rfl
    | none =>
      cases formats with
      | nil => exact absurd rfl hne
      | cons a l => rfl
  · rintro l1 f l2 rfl hf hall
    unfold selectSurfaceFormat
    have hfind : ∀ l : List SurfaceFormat, (∀ g ∈ l, g.isSrgb = false) →
        (l ++ f :: l2).find? (fun g => g.isSrgb) = some f := by
      intro l
      induction l with
      | nil =>
        intro _
        simp [List.find?_cons_of_pos, hf]
      | cons a t ih =>
        intro hall2
        have ha : a.isSrgb = false := hall2 a (List.mem_cons_self a t)
        rw [List.cons_append, List.find?_cons_of_neg]
        · exact ih (fun g hg => hall2 g (List.mem_cons_of_mem a hg))
        · simp [ha]
    rw [hfind l1 hall]
  · intro hall
    unfold selectSurfaceFormat
    have hfind : formats.find? (fun f => f.isSrgb) = none := by
      rw [List.find?_eq_none]
      intro x hx
      simp [hall x hx]
    rw [hfind]

theorem surfaceFormatSelection_witness :
    selectSurfaceFormat sampleFormats = some ⟨1, true⟩ :=
  (surfaceFormatSelection sampleFormats (by decide)).2.1 [⟨0, false⟩] ⟨1, true⟩ []
    rfl rfl (by decide)

/-- C10: `resize` updates the stored scale factor exactly when the
argument is `Some s` with `s > 0`, independently of the size argument;
in particular `resize(0,0,Some s)` with `s > 0` updates the scale factor
while leaving the surface configuration (and camera and SSAO textures)
unchanged. -/
theorem resizeScaleFactorIndependent {C Ctrl : Type} (ops : CameraOps C Ctrl)
    (st : WindowContext C Ctrl) :
    (∀ w h : ℕ, (st.resize ops w h none).scaleFactor = st.scaleFactor) ∧
    (∀ (w h : ℕ) (s : ℚ), s ≤ 0 →
      (st.resize ops w h (some s)).scaleFactor = st.scaleFactor) ∧
    (∀ (w h : ℕ) (s : ℚ), 0 < s →
      (st.resize ops w h (some s)).scaleFactor = s) ∧
    (∀ s : ℚ, 0 < s →
      (st.resize ops 0 0 (some s)).scaleFactor = s ∧
      (st.resize ops 0 0 (some s)).configWidth = st.configWidth ∧
      (st.resize ops 0 0 (some s)).configHeight = st.configHeight ∧
      (st.resize ops 0 0 (some s)).camera = st.camera ∧
      (st.resize ops 0 0 (some s)).ssaoWidth = st.ssaoWidth ∧
      (st.resize ops 0 0 (some s)).ssaoHeight = st.ssaoHeight) := by
  refine ⟨?_, ?_, ?_, ?_⟩
  · intro w h
    simp [WindowContext.resize, apply_ite WindowContext.scaleFactor, ite_self]
  · intro w h s hs
    simp [WindowContext.resize, not_lt.2 hs, apply_ite WindowContext.scaleFactor,
      ite_self]
  · intro w h s hs
    simp [WindowContext.resize, hs]
  · intro s hs
    refine ⟨?_, ?_, ?_, ?_, ?_, ?_⟩ <;> simp [WindowContext.resize, hs]

theorem resizeScaleFactorIndependent_witness :
    (sampleCtx.resize unitOps 0 0 (some 2)).scaleFactor = 2 ∧
    (sampleCtx.resize unitOps 0 0 (some 2)).configWidth = sampleCtx.configWidth ∧
    (sampleCtx.resize unitOps 0 0 (some 2)).configHeight = sampleCtx.configHeight ∧
    (sampleCtx.resize unitOps 0 0 (some 2)).camera = sampleCtx.camera ∧
    (sampleCtx.resize unitOps 0 0 (some 2)).ssaoWidth = sampleCtx.ssaoWidth ∧
    (sampleCtx.resize unitOps 0 0 (some 2)).ssaoHeight = sampleCtx.ssaoHeight :=
  (resizeScaleFactorIndependent unitOps sampleCtx).2.2.2 2 (by decide)
